import Mathlib

/-!
Verification of the ark-resolver identifier codec and redirect-resolution
engine (dasch-swiss/ark-resolver, Rust sources).

Strings are modelled as `List Char`.  All inputs that the modelled functions
accept without error consist of ASCII characters only (the base64url
alphabet, hex digits, digits), so Rust's byte length (`str::len`) coincides
with the character count on every non-error path, and byte slicing
(`&s[..s.len() - 1]`) coincides with `List.dropLast`.  Machine integers
(`usize`, `u32`, `u8`) are modelled as `Nat` with explicit `% 2^w` where a
narrowing cast occurs in the source.
-/

set_option synthInstance.maxSize 1000

deriving instance DecidableEq for Except

namespace ArkResolver

/-- Errors of `src/core/errors/check_digit.rs`. -/
inductive CheckDigitError where
  | EmptyCode : CheckDigitError
  | InvalidCode : List Char → CheckDigitError
  | InvalidCharacter : Char → CheckDigitError
  | InvalidCharacterValue : Int → CheckDigitError
deriving DecidableEq, Repr

/-- The base64url alphabet (without padding) from RFC 4648, Table 2
(`BASE64URL_ALPHABET` in `src/core/domain/check_digit.rs`). -/
def BASE64URL_ALPHABET : List Char :=
  ("ABCDEFGHIJKLMNOPQRSTUVWXYZabcdefghijklmnopqrstuvwxyz0123456789-_").toList

/-- `BASE64URL_ALPHABET_LENGTH` in `src/core/domain/check_digit.rs`. -/
def BASE64URL_ALPHABET_LENGTH : Nat := 64

/-- Index of the first occurrence of `c` in a character list; models
`str::find` on the (ASCII) alphabet string, where the byte index of the
first occurrence equals the character index. -/
def alphabet_index (c : Char) : List Char → Option Nat
  | [] => none
  | a :: rest => if a == c then some 0 else (alphabet_index c rest).map (· + 1)

/-- `to_int` of `src/core/domain/check_digit.rs`: the zero-based index of a
character in the base64url alphabet, or `InvalidCharacter`. -/
def to_int (ch : Char) : Except CheckDigitError Nat :=
  match alphabet_index ch BASE64URL_ALPHABET with
  | some i => .ok i
  | none => .error (.InvalidCharacter ch)

/-- `weighted_value` of `src/core/domain/check_digit.rs`. -/
def weighted_value (char_value right_pos : Nat) : Nat :=
  char_value * right_pos

/-- The accumulation loop of `calculate_modulus`
(`src/core/domain/check_digit.rs`, lines 41-47): the character at
enumeration index `i` contributes `weighted_value (to_int ch) (length - i)`;
the first character outside the alphabet aborts with its error. -/
def sum_weighted (length : Nat) : List Char → Nat → Except CheckDigitError Nat
  | [], _ => .ok 0
  | ch :: rest, i =>
    match to_int ch with
    | .error e => .error e
    | .ok v =>
      match sum_weighted length rest (i + 1) with
      | .error e => .error e
      | .ok s => .ok (weighted_value v (length - i) + s)

/-- `calculate_modulus` of `src/core/domain/check_digit.rs`. -/
def calculate_modulus (code : List Char) (includes_check_digit : Bool) :
    Except CheckDigitError Nat :=
  let length := if includes_check_digit then code.length else code.length + 1
  match sum_weighted length code 0 with
  | .error e => .error e
  | .ok total =>
    if total = 0 then .error (.InvalidCode code)
    else .ok (total % BASE64URL_ALPHABET_LENGTH)

/-- `is_valid` of `src/core/domain/check_digit.rs`: empty codes and failing
modulus computations yield `Ok(false)`. -/
def is_valid (code : List Char) : Except CheckDigitError Bool :=
  if code.isEmpty then .ok false
  else
    match calculate_modulus code true with
    | .ok modulus_result => .ok (modulus_result == 0)
    | .error _ => .ok false

/-- `to_check_digit` of `src/core/domain/check_digit.rs` (the `i32`
argument is modelled as `Int`). -/
def to_check_digit (char_value : Int) : Except CheckDigitError Char :=
  if char_value < 0 ∨ BASE64URL_ALPHABET_LENGTH ≤ char_value then
    .error (.InvalidCharacterValue char_value)
  else
    match BASE64URL_ALPHABET.get? char_value.toNat with
    | some c => .ok c
    | none => .error (.InvalidCharacterValue char_value)

/-- `calculate_check_digit` of `src/core/domain/check_digit.rs`. -/
def calculate_check_digit (code : List Char) : Except CheckDigitError Char :=
  if code.isEmpty then .error .EmptyCode
  else
    match calculate_modulus code false with
    | .error e => .error e
    | .ok modulus_result =>
      to_check_digit (Int.ofNat ((BASE64URL_ALPHABET_LENGTH - modulus_result) %
        BASE64URL_ALPHABET_LENGTH))

/-- Errors of `src/core/errors/uuid_processing.rs`. -/
inductive UuidProcessingError where
  | CheckDigitError : CheckDigitError → UuidProcessingError
  | InvalidArkId : List Char → UuidProcessingError
  | EmptyUuid : List Char → UuidProcessingError
deriving DecidableEq, Repr

/-- One step of `str::replace('-', "=")` (a single-character pattern, so the
replacement is a character map). -/
def escape_char (c : Char) : Char := if c == '-' then '=' else c

/-- One step of `str::replace('=', "-")`. -/
def unescape_char (c : Char) : Char := if c == '=' then '-' else c

/-- `add_check_digit_and_escape` of `src/core/domain/uuid_processing.rs`. -/
def add_check_digit_and_escape (uuid : List Char) :
    Except UuidProcessingError (List Char) :=
  match calculate_check_digit uuid with
  | .error e => .error (.CheckDigitError e)
  | .ok check_digit => .ok ((uuid ++ [check_digit]).map escape_char)

/-- `unescape_and_validate_uuid` of `src/core/domain/uuid_processing.rs`.
On the success path every character of `unescaped_uuid` lies in the (ASCII)
alphabet, so removing the last byte equals removing the last character. -/
def unescape_and_validate_uuid (ark_url escaped_uuid : List Char) :
    Except UuidProcessingError (List Char) :=
  if escaped_uuid.isEmpty then .error (.EmptyUuid ark_url)
  else
    let unescaped_uuid := escaped_uuid.map unescape_char
    if unescaped_uuid.isEmpty then .error (.EmptyUuid ark_url)
    else
      match is_valid unescaped_uuid with
      | .error e => .error (.CheckDigitError e)
      | .ok valid =>
        if !valid then .error (.InvalidArkId ark_url)
        else .ok unescaped_uuid.dropLast

example : calculate_check_digit ("cmfk1DMHRBiR4-_6HXpEFA").toList = .ok 'n' := by decide
example : is_valid ("cmfk1DMHRBiR4-_6HXpEFAn").toList = .ok true := by decide
example : is_valid ("cmfk1DMHRBiR4-_6HXpEFA").toList = .ok false := by decide
example : is_valid [] = .ok false := by decide
example : add_check_digit_and_escape ("0002-70aWaB2kWsuiN6ujYgM0ZQ").toList =
    .ok ("0002=70aWaB2kWsuiN6ujYgM0ZQ5").toList := by decide
example : unescape_and_validate_uuid ("x").toList ("0002=70aWaB2kWsuiN6ujYgM0ZQ5").toList =
    .ok ("0002-70aWaB2kWsuiN6ujYgM0ZQ").toList := by decide
example : add_check_digit_and_escape ['A'] =
    .error (.CheckDigitError (.InvalidCode ['A'])) := by decide

/-! ## Identifier grammar (`src/core/domain/parsing.rs`)

The two grammars are given in the source as anchored regular expressions
over disjoint ASCII character classes none of which contains the separator
characters `/`, `-` or `.`; they are modelled here by literal-prefix
stripping and separator splitting, which recognizes the same language. -/

/-- Character class `[0-9]`. -/
def is_ascii_digit (c : Char) : Bool := ('0' ≤ c && c ≤ '9')

/-- Character class `[0-9A-Fa-f]` (`PROJECT_ID_PATTERN` body). -/
def is_hex_char (c : Char) : Bool :=
  (is_ascii_digit c || ('A' ≤ c && c ≤ 'F') || ('a' ≤ c && c ≤ 'f'))

/-- Character class `[A-Za-z0-9]`. -/
def is_alphanum_char (c : Char) : Bool :=
  (is_ascii_digit c || ('A' ≤ c && c ≤ 'Z') || ('a' ≤ c && c ≤ 'z'))

/-- Character class `[A-Za-z0-9=_]` (`ENCODED_UUID_PATTERN` body; `-` is
deliberately excluded). -/
def is_encoded_uuid_char (c : Char) : Bool :=
  (is_alphanum_char c || c == '=' || c == '_')

/-- `([0-9]+)`: the version capture of `ark_path_regex`. -/
def is_version_seg (s : List Char) : Bool := (!s.isEmpty && s.all is_ascii_digit)

/-- `([0-9A-Fa-f]{4})`: `PROJECT_ID_PATTERN`. -/
def is_project_id_seg (s : List Char) : Bool := (s.length == 4 && s.all is_hex_char)

/-- `([A-Za-z0-9=_]+)`: `ENCODED_UUID_PATTERN`. -/
def is_encoded_uuid_seg (s : List Char) : Bool :=
  (!s.isEmpty && s.all is_encoded_uuid_char)

/-- Strips an expected literal prefix, returning the remainder. -/
def drop_literal : List Char → List Char → Option (List Char)
  | [], s => some s
  | _ :: _, [] => none
  | p :: ps, c :: cs => if c == p then drop_literal ps cs else none

/-- `ark_path_regex` of `src/core/domain/parsing.rs`:
`^ark:/<naan>/([0-9]+)(?:/([0-9A-Fa-f]{4})(?:/([A-Za-z0-9=_]+)(?:/([A-Za-z0-9=_]+))?)?)?$`.
The NAAN is interpolated verbatim (the deployed NAAN `00000` contains no
regex metacharacters, so it matches literally).  Returns the capture groups
(version, project id, escaped resource, escaped value). -/
def ark_path_match (naan processed : List Char) :
    Option (List Char × Option (List Char) × Option (List Char) × Option (List Char)) :=
  match drop_literal (("ark:/").toList ++ naan ++ [ '/' ]) processed with
  | none => none
  | some rest =>
    match rest.splitOn '/' with
    | [v] => if is_version_seg v then some (v, none, none, none) else none
    | [v, p] =>
      if is_version_seg v && is_project_id_seg p then some (v, some p, none, none)
      else none
    | [v, p, r] =>
      if is_version_seg v && is_project_id_seg p && is_encoded_uuid_seg r then
        some (v, some p, some r, none)
      else none
    | [v, p, r, w] =>
      if is_version_seg v && is_project_id_seg p && is_encoded_uuid_seg r &&
          is_encoded_uuid_seg w then
        some (v, some p, some r, some w)
      else none
    | _ => none

/-- Splits a path at the first `.`, as `CompiledRegexes::match_ark_path`
(`src/core/domain/settings.rs`, lines 225-229) does with `str::find`:
everything after the first dot is the (unvalidated) timestamp token. -/
def split_first_dot : List Char → List Char × Option (List Char)
  | [] => ([], none)
  | c :: rest =>
    if c == '.' then ([], some rest)
    else
      let (a, b) := split_first_dot rest
      (c :: a, b)

/-- `CompiledRegexes::match_ark_path` of `src/core/domain/settings.rs`:
split off the timestamp at the first dot, then match the v1 regex on the
remainder.  Group 1 (the version) is mandatory, so it is `some` on match. -/
def match_ark_path (naan ark_path : List Char) :
    Option (Option (List Char) × Option (List Char) × Option (List Char) ×
      Option (List Char) × Option (List Char)) :=
  let (processed, timestamp) := split_first_dot ark_path
  (ark_path_match naan processed).map
    (fun (v, p, r, w) => (some v, p, r, w, timestamp))

/-- `v0_ark_path_regex` of `src/core/domain/parsing.rs`:
`^ark:/<naan>/([0-9A-Fa-f]+)-([A-Za-z0-9]+)-[A-Za-z0-9]+(?:\.([0-9]{6,8}))?$`.
Note that the project-id group accepts hex of ANY positive length here,
unlike the 4-character `PROJECT_ID_PATTERN` of the v1 grammar. -/
def v0_ark_path_match (naan ark_path : List Char) :
    Option (List Char × List Char × Option (List Char)) :=
  match drop_literal (("ark:/").toList ++ naan ++ [ '/' ]) ark_path with
  | none => none
  | some rest =>
    match rest.splitOn '-' with
    | [p, l, d] =>
      if !p.isEmpty && p.all is_hex_char && !l.isEmpty && l.all is_alphanum_char then
        match d.splitOn '.' with
        | [disc] =>
          if !disc.isEmpty && disc.all is_alphanum_char then some (p, l, none) else none
        | [disc, ts] =>
          if !disc.isEmpty && disc.all is_alphanum_char &&
              decide (6 ≤ ts.length) && decide (ts.length ≤ 8) && ts.all is_ascii_digit then
            some (p, l, some ts)
          else none
        | _ => none
      else none
    | _ => none

/-- Digit-string accumulation underlying `str::parse::<u32>`. -/
def nat_of_digits : List Char → Nat → Nat
  | [], acc => acc
  | c :: rest, acc => nat_of_digits rest (acc * 10 + (c.toNat - 48))

/-- `str::parse::<u32>` restricted to the `[0-9]+` strings it is applied to
in `ArkUrlParsingAdapter::parse_ark_v1`: fails on overflow past `u32::MAX`. -/
def parse_u32 (s : List Char) : Option Nat :=
  if !s.isEmpty && s.all is_ascii_digit then
    let n := nat_of_digits s 0
    if n < 4294967296 then some n else none
  else none

/-- `ArkUrlParsingAdapter::parse_ark_v1` of `src/adapters/pyo3/ark_url_info.rs`:
the version capture is parsed as `u32`, defaulting to 1 when absent or
unparseable. -/
def parse_ark_v1 (naan ark_id : List Char) :
    Option (Nat × Option (List Char) × Option (List Char) × Option (List Char) ×
      Option (List Char)) :=
  (match_ark_path naan ark_id).map
    (fun (v, p, r, w, ts) => ((v.bind parse_u32).getD 1, p, r, w, ts))

/-- `ArkUrlParsingAdapter::parse_ark_v0` of `src/adapters/pyo3/ark_url_info.rs`
(groups 1 and 2 always participate on a match; `unwrap_or_default` is
modelled by `getD []`). -/
def parse_ark_v0 (naan ark_id : List Char) :
    Option (List Char × List Char × Option (List Char)) :=
  v0_ark_path_match naan ark_id

example :
    parse_ark_v1 ("00000").toList ("ark:/00000/1/0003").toList =
      some (1, some ("0003").toList, none, none, none) := by decide
example :
    parse_ark_v1 ("00000").toList ("ark:/00000/1/0001/cmfk1DMHRBiR4=_6HXpEFAn").toList =
      some (1, some ("0001").toList, some ("cmfk1DMHRBiR4=_6HXpEFAn").toList, none, none) := by
  decide
example :
    parse_ark_v1 ("00000").toList ("ark:/00000/0002-779b9990a0c3f-6e").toList = none := by
  decide
example :
    parse_ark_v0 ("00000").toList ("ark:/00000/0002-779b9990a0c3f-6e").toList =
      some (("0002").toList, ("779b9990a0c3f").toList, none) := by decide
example :
    parse_ark_v0 ("00000").toList ("ark:/00000/080e-76bb2132d30d6-0.20190129").toList =
      some (("080e").toList, ("76bb2132d30d6").toList, some ("20190129").toList) := by decide
example :
    parse_ark_v0 ("00000").toList ("ark:/00000/1/0003").toList = none := by decide

/-! ## Domain object (`src/core/domain/ark_url_info.rs`) -/

/-- `ArkUrlInfo` of `src/core/domain/ark_url_info.rs` (`url_version` is a
`u8`, modelled as `Nat`; construction sites reduce it `% 256`). -/
structure ArkUrlInfo where
  url_version : Nat
  project_id : Option (List Char)
  resource_id : Option (List Char)
  value_id : Option (List Char)
  timestamp : Option (List Char)
deriving DecidableEq, Repr

/-- `ArkUrlInfo::is_project_level`. -/
def is_project_level (i : ArkUrlInfo) : Bool := i.resource_id.isNone

/-- `ArkUrlInfo::is_resource_level`. -/
def is_resource_level (i : ArkUrlInfo) : Bool :=
  i.resource_id.isSome && i.value_id.isNone

/-- `ArkUrlInfo::is_value_level`. -/
def is_value_level (i : ArkUrlInfo) : Bool := i.value_id.isSome

/-- `ArkUrlInfo::has_timestamp`. -/
def has_timestamp (i : ArkUrlInfo) : Bool := i.timestamp.isSome

/-- `ArkUrlInfo::is_version_0`. -/
def is_version_0 (i : ArkUrlInfo) : Bool := i.url_version == 0

/-- The substitution map is a key-value association; `HashMap::insert`
replaces any existing binding of the key. -/
def TemplateDict : Type := List (List Char × List Char)

/-- `HashMap::insert`: overwrite semantics. -/
def dict_insert (k v : List Char) (d : TemplateDict) : TemplateDict :=
  (k, v) :: (List.filter (fun kv => !(kv.1 == k)) d)

/-- `ArkUrlInfo::to_template_dict` of `src/core/domain/ark_url_info.rs`:
`url_version` plus every present optional field. -/
def to_template_dict (i : ArkUrlInfo) : TemplateDict :=
  let d : TemplateDict := dict_insert (("url_version").toList)
    (Nat.toDigits 10 i.url_version) []
  let d := match i.project_id with
    | some p => dict_insert (("project_id").toList) p d
    | none => d
  let d := match i.resource_id with
    | some r => dict_insert (("resource_id").toList) r d
    | none => d
  let d := match i.value_id with
    | some w => dict_insert (("value_id").toList) w d
    | none => d
  match i.timestamp with
  | some ts => dict_insert (("timestamp").toList) ts d
  | none => d

/-! ## Use-case layer (`src/core/use_cases/ark_url_info_processor.rs`) -/

/-- Errors of `src/core/errors/ark_url_info.rs`.  In the source
`UuidProcessingFailed` carries the message string of the underlying
`UuidProcessingError` (`ArkUrlParsingAdapter::unescape_and_validate_uuid`
maps `e` to `uuid_processing_failed(e.to_string())`); the model carries the
error value itself, which determines that message. -/
inductive ArkUrlInfoError where
  | InvalidArkId : List Char → ArkUrlInfoError
  | VersionMismatch : List Char → ArkUrlInfoError
  | Version0NotAllowed : List Char → ArkUrlInfoError
  | ProjectIdRequired : ArkUrlInfoError
  | TemplateNotFound : List Char → ArkUrlInfoError
  | TemplateSubstitutionFailed : List Char → ArkUrlInfoError
  | UuidProcessingFailed : UuidProcessingError → ArkUrlInfoError
  | ConfigurationError : List Char → ArkUrlInfoError
  | StringTemplateError : List Char → ArkUrlInfoError
  | RedirectTemplateUndetermined : ArkUrlInfoError
deriving DecidableEq, Repr

/-- The external capabilities of `ArkUrlInfoProcessor`: the configuration,
template and UUID-generation ports of `src/core/ports/ark_url_info.rs`
(the parsing port's two grammar matchers are the concrete
`ArkUrlParsingAdapter` functions modelled above, parameterized by the
NAAN; its `unescape_and_validate_uuid` is the domain function). -/
structure Ports where
  get_dsp_ark_version : Nat
  is_version_0_allowed : List Char → Except ArkUrlInfoError Bool
  get_top_level_redirect_url : List Char
  get_project_template : List Char → List Char → Except ArkUrlInfoError (List Char)
  get_project_host : List Char → Except ArkUrlInfoError (List Char)
  substitute : List Char → TemplateDict → Except ArkUrlInfoError (List Char)
  url_encode : List Char → Except ArkUrlInfoError (List Char)
  generate_v5_uuid : List Char → Except ArkUrlInfoError (List Char)

/-- The optional-segment processing in `parse_ark_id` (lines 62-79): a
present escaped segment goes through the Escaper, whose failure is wrapped
as `UuidProcessingFailed` by the parsing adapter and propagated by `?`. -/
def process_optional_uuid (ark_id : List Char) :
    Option (List Char) → Except ArkUrlInfoError (Option (List Char))
  | some escaped => match unescape_and_validate_uuid ark_id escaped with
    | .ok u => .ok (some u)
    | .error e => .error (.UuidProcessingFailed e)
  | none => .ok none

/-- The v1 branch of `parse_ark_id` (lines 49-88): version check against the
configured DSP ARK version, then unescape-and-validate of the resource and
value segments; `url_version as u8` is the `% 256` narrowing. -/
def process_v1 (P : Ports) (ark_id : List Char)
    (components : Nat × Option (List Char) × Option (List Char) × Option (List Char) ×
      Option (List Char)) : Except ArkUrlInfoError ArkUrlInfo :=
  let (url_version, project_id, escaped_resource_id, escaped_value_id, timestamp) :=
    components
  if url_version ≠ P.get_dsp_ark_version then .error (.VersionMismatch ark_id)
  else
    match process_optional_uuid ark_id escaped_resource_id with
    | .error e => .error e
    | .ok resource_id =>
      match process_optional_uuid ark_id escaped_value_id with
      | .error e => .error e
      | .ok value_id =>
        .ok ⟨url_version % 256, project_id, resource_id, value_id, timestamp⟩

/-- The v0 branch of `parse_ark_id` (lines 91-111): the project id is
upper-cased, version 0 must be allowed for it, and a timestamp shorter than
8 characters is treated as absent. -/
def process_v0 (P : Ports) (ark_id : List Char)
    (components : List Char × List Char × Option (List Char)) :
    Except ArkUrlInfoError ArkUrlInfo :=
  let (project_id0, resource_id, submitted_timestamp) := components
  let project_id := project_id0.map Char.toUpper
  match P.is_version_0_allowed project_id with
  | .error e => .error e
  | .ok allowed =>
    if !allowed then .error (.Version0NotAllowed ark_id)
    else
      let timestamp := submitted_timestamp.filter (fun ts => decide (8 ≤ ts.length))
      .ok ⟨0, some project_id, some resource_id, none, timestamp⟩

/-- `ArkUrlInfoProcessor::parse_ark_id` of
`src/core/use_cases/ark_url_info_processor.rs`, instantiated with the
production parsing adapter: try the v1 grammar first, then the v0 grammar,
and fail with `InvalidArkId` if neither matches. -/
def parse_ark_id (P : Ports) (naan ark_id : List Char) :
    Except ArkUrlInfoError ArkUrlInfo :=
  match parse_ark_v1 naan ark_id with
  | some components => process_v1 P ark_id components
  | none =>
    match parse_ark_v0 naan ark_id with
    | some components => process_v0 P ark_id components
    | none => .error (.InvalidArkId ark_id)

/-- `ArkUrlInfoProcessor::determine_redirect_template` (lines 214-228). -/
def determine_redirect_template (ark_info : ArkUrlInfo) :
    Except ArkUrlInfoError (List Char) :=
  match is_project_level ark_info, is_resource_level ark_info,
      is_value_level ark_info, has_timestamp ark_info with
  | true, false, false, _ => .ok (("DSPProjectRedirectUrl").toList)
  | false, true, false, false => .ok (("DSPResourceRedirectUrl").toList)
  | false, true, false, true => .ok (("DSPResourceVersionRedirectUrl").toList)
  | false, false, true, false => .ok (("DSPValueRedirectUrl").toList)
  | false, false, true, true => .ok (("DSPValueVersionRedirectUrl").toList)
  | _, _, _, _ => .error .RedirectTemplateUndetermined

/-- `ArkUrlInfoProcessor::generate_resource_iri` (lines 182-211). -/
def generate_resource_iri (P : Ports) (ark_info : ArkUrlInfo) :
    Except ArkUrlInfoError (List Char) :=
  match ark_info.project_id with
  | none => .error .ProjectIdRequired
  | some project_id =>
    match P.get_project_template project_id (("DSPResourceIri").toList) with
    | .error e => .error e
    | .ok template =>
      let dict := to_template_dict ark_info
      match P.get_project_template project_id (("Host").toList) with
      | .error e => .error e
      | .ok host =>
        let dict := dict_insert (("host").toList) host dict
        if is_version_0 ark_info then
          match ark_info.resource_id with
          | none =>
            .error (.ConfigurationError
              (("Resource ID required for version 0 ARK URLs").toList))
          | some resource_id =>
            match P.generate_v5_uuid resource_id with
            | .error e => .error e
            | .ok uuid_v5 =>
              P.substitute template (dict_insert (("resource_id").toList) uuid_v5 dict)
        else P.substitute template dict

/-- `ArkUrlInfoProcessor::generate_resource_iri_for_template` (lines 231-244). -/
def generate_resource_iri_for_template (P : Ports) (ark_info : ArkUrlInfo)
    (template_dict : TemplateDict) : Except ArkUrlInfoError (List Char) :=
  match ark_info.project_id with
  | none => .error .ProjectIdRequired
  | some project_id =>
    match P.get_project_template project_id (("DSPResourceIri").toList) with
    | .error e => .error e
    | .ok template => P.substitute template template_dict

/-- `ArkUrlInfoProcessor::generate_project_iri_for_template` (lines 247-260). -/
def generate_project_iri_for_template (P : Ports) (ark_info : ArkUrlInfo)
    (template_dict : TemplateDict) : Except ArkUrlInfoError (List Char) :=
  match ark_info.project_id with
  | none => .error .ProjectIdRequired
  | some project_id =>
    match P.get_project_template project_id (("DSPProjectIri").toList) with
    | .error e => .error e
    | .ok template => P.substitute template template_dict

/-- `ArkUrlInfoProcessor::generate_dsp_redirect_url` (lines 128-179). -/
def generate_dsp_redirect_url (P : Ports) (ark_info : ArkUrlInfo) :
    Except ArkUrlInfoError (List Char) :=
  match ark_info.project_id with
  | none => .error .ProjectIdRequired
  | some project_id =>
    match determine_redirect_template ark_info with
    | .error e => .error e
    | .ok template_name =>
      match P.get_project_template project_id template_name with
      | .error e => .error e
      | .ok template =>
        let dict := to_template_dict ark_info
        match P.get_project_template project_id (("Host").toList) with
        | .error e => .error e
        | .ok host =>
          let dict := dict_insert (("host").toList) host dict
          let converted : Except ArkUrlInfoError TemplateDict :=
            if is_version_0 ark_info then
              match generate_resource_iri P ark_info with
              | .error e => .error e
              | .ok resource_iri =>
                let converted_resource_id :=
                  ((resource_iri.splitOn '/').getLast?).getD []
                .ok (dict_insert (("resource_id").toList) converted_resource_id dict)
            else .ok dict
          match converted with
          | .error e => .error e
          | .ok dict =>
            let with_host : Except ArkUrlInfoError TemplateDict :=
              if is_project_level ark_info then
                match P.get_project_host project_id with
                | .error e => .error e
                | .ok project_host =>
                  .ok (dict_insert (("project_host").toList) project_host dict)
              else .ok dict
            match with_host with
            | .error e => .error e
            | .ok dict =>
              match generate_resource_iri_for_template P ark_info dict with
              | .error e => .error e
              | .ok resource_iri =>
                match generate_project_iri_for_template P ark_info dict with
                | .error e => .error e
                | .ok project_iri =>
                  match P.url_encode resource_iri with
                  | .error e => .error e
                  | .ok enc_resource_iri =>
                    match P.url_encode project_iri with
                    | .error e => .error e
                    | .ok enc_project_iri =>
                      let dict := dict_insert (("resource_iri").toList)
                        enc_resource_iri dict
                      let dict := dict_insert (("project_iri").toList)
                        enc_project_iri dict
                      P.substitute template dict

/-- `ArkUrlInfoProcessor::generate_redirect_url` (lines 118-125). -/
def generate_redirect_url (P : Ports) (ark_info : ArkUrlInfo) :
    Except ArkUrlInfoError (List Char) :=
  if ark_info.project_id.isNone then .ok P.get_top_level_redirect_url
  else generate_dsp_redirect_url P ark_info

/-- A sample port assembly: DSP ARK version 1, version 0 allowed for every
project, every template lookup succeeding with the template name itself. -/
def sample_ports : Ports where
  get_dsp_ark_version := 1
  is_version_0_allowed := fun _ => .ok true
  get_top_level_redirect_url := ("https://dasch.swiss").toList
  get_project_template := fun _ name => .ok name
  get_project_host := fun _ => .ok (("example.org").toList)
  substitute := fun t _ => .ok t
  url_encode := fun s => .ok s
  generate_v5_uuid := fun s => .ok s

/-- Ports whose template lookup always fails, to observe which key a
use-case function requests first. -/
def failing_template_ports : Ports :=
  { sample_ports with get_project_template := fun _ name => .error (.TemplateNotFound name) }

example :
    parse_ark_id sample_ports (("00000").toList) (("ark:/00000/1/0003").toList) =
      .ok ⟨1, some (("0003").toList), none, none, none⟩ := by decide
example :
    parse_ark_id sample_ports (("00000").toList)
        (("ark:/00000/1/0001/cmfk1DMHRBiR4=_6HXpEFAn").toList) =
      .ok ⟨1, some (("0001").toList), some (("cmfk1DMHRBiR4-_6HXpEFA").toList),
        none, none⟩ := by decide
example :
    parse_ark_id sample_ports (("00000").toList)
        (("ark:/00000/0002-779b9990a0c3f-6e.20190129").toList) =
      .ok ⟨0, some (("0002").toList), some (("779b9990a0c3f").toList), none,
        some (("20190129").toList)⟩ := by decide
example :
    parse_ark_id sample_ports (("00000").toList)
        (("ark:/00000/0002-779b9990a0c3f-6e.201901").toList) =
      .ok ⟨0, some (("0002").toList), some (("779b9990a0c3f").toList), none,
        none⟩ := by decide
example :
    parse_ark_id sample_ports (("00000").toList) (("nonsense").toList) =
      .error (.InvalidArkId (("nonsense").toList)) := by decide

/-! ## Checksum lemmas -/

/-- Membership in the base64url alphabet. -/
def in_alphabet (c : Char) : Bool := (alphabet_index c BASE64URL_ALPHABET).isSome

/-- The value of an alphabet character (0 for characters outside it). -/
def char_value (c : Char) : Nat := (alphabet_index c BASE64URL_ALPHABET).getD 0

/-- Reference weighted sum, following the spec text: the character at
left index `i` has right-to-left position `length - i` and contributes
its value times that position. -/
def ref_weighted_sum (length : Nat) : List Char → Nat → Nat
  | [], _ => 0
  | c :: rest, i => char_value c * (length - i) + ref_weighted_sum length rest (i + 1)

theorem to_int_ok_iff {c : Char} {v : Nat} :
    to_int c = .ok v ↔ in_alphabet c = true ∧ char_value c = v := by
  unfold to_int in_alphabet char_value
  cases h : alphabet_index c BASE64URL_ALPHABET with
  | none => simp
  | some i => simp [eq_comm]

theorem to_int_error {c : Char} (h : in_alphabet c = false) :
    to_int c = .error (.InvalidCharacter c) := by
  unfold to_int
  unfold in_alphabet at h
  cases hidx : alphabet_index c BASE64URL_ALPHABET
  · rfl
  · rw [hidx] at h; simp [Option.isSome] at h

theorem sum_weighted_ok_of_all {code : List Char}
    (hall : ∀ c ∈ code, in_alphabet c = true) (L i : Nat) :
    sum_weighted L code i = .ok (ref_weighted_sum L code i) := by
  induction code generalizing i with
  | nil => rfl
  | cons c rest ih =>
    have hc : in_alphabet c = true := hall c (List.mem_cons_self c rest)
    have hv : to_int c = .ok (char_value c) := to_int_ok_iff.mpr ⟨hc, rfl⟩
    have hrest : ∀ x ∈ rest, in_alphabet x = true :=
      fun x hx => hall x (List.mem_cons_of_mem c hx)
    simp only [sum_weighted, hv, ih hrest, ref_weighted_sum, weighted_value]

theorem sum_weighted_ok_elim {code : List Char} {L i n : Nat}
    (h : sum_weighted L code i = .ok n) :
    (∀ c ∈ code, in_alphabet c = true) ∧ n = ref_weighted_sum L code i := by
  induction code generalizing i n with
  | nil =>
    simp only [sum_weighted] at h
    injection h with h
    exact ⟨by simp, h.symm⟩
  | cons c rest ih =>
    simp only [sum_weighted] at h
    cases hv : to_int c with
    | error e => rw [hv] at h; exact absurd h (by simp)
    | ok v =>
      rw [hv] at h
      cases hs : sum_weighted L rest (i + 1) with
      | error e => rw [hs] at h; exact absurd h (by simp)
      | ok s =>
        rw [hs] at h
        injection h with h
        obtain ⟨hcv, rfl⟩ := to_int_ok_iff.mp hv
        obtain ⟨hall, rfl⟩ := ih hs
        refine ⟨?_, ?_⟩
        · intro x hx
          rcases List.mem_cons.mp hx with rfl | hx
          · exact hcv
          · exact hall x hx
        · simp only [ref_weighted_sum, weighted_value] at h ⊢
          omega

theorem ref_weighted_sum_append (L : Nat) (s t : List Char) (i : Nat) :
    ref_weighted_sum L (s ++ t) i =
      ref_weighted_sum L s i + ref_weighted_sum L t (i + s.length) := by
  induction s generalizing i with
  | nil => simp [ref_weighted_sum]
  | cons c rest ih =>
    calc ref_weighted_sum L ((c :: rest) ++ t) i
        = char_value c * (L - i) + ref_weighted_sum L (rest ++ t) (i + 1) := rfl
      _ = char_value c * (L - i) + (ref_weighted_sum L rest (i + 1) +
            ref_weighted_sum L t (i + 1 + rest.length)) := by rw [ih]
      _ = ref_weighted_sum L (c :: rest) i +
            ref_weighted_sum L t (i + (c :: rest).length) := by
          simp only [ref_weighted_sum, List.length_cons]
          have : i + 1 + rest.length = i + (rest.length + 1) := by omega
          rw [this, Nat.add_assoc]

theorem alphabet_spans : ∀ k, k < 64 →
    (BASE64URL_ALPHABET.get? k).map
      (fun c => alphabet_index c BASE64URL_ALPHABET) = some (some k) := by decide

theorem alphabet_length : BASE64URL_ALPHABET.length = 64 := by decide

theorem alphabet_index_of_get? {k : Nat} {d : Char}
    (h : BASE64URL_ALPHABET.get? k = some d) :
    alphabet_index d BASE64URL_ALPHABET = some k := by
  have hk : k < 64 := by
    obtain ⟨hlt, -⟩ := List.get?_eq_some.mp h
    exact alphabet_length ▸ hlt
  have := alphabet_spans k hk
  rw [h] at this
  simpa using this

theorem in_alphabet_ne_eq {c : Char} (h : in_alphabet c = true) : ¬ c = '=' := by
  rintro rfl
  exact absurd h (by decide)

theorem unescape_escape_of_alphabet {c : Char} (h : in_alphabet c = true) :
    unescape_char (escape_char c) = c := by
  unfold escape_char unescape_char
  by_cases hc : c = '-'
  · subst hc; rfl
  · have hne : ¬ c = '=' := in_alphabet_ne_eq h
    simp [hc, hne]

theorem calculate_modulus_eq (code : List Char) (inc : Bool)
    (hall : ∀ c ∈ code, in_alphabet c = true) :
    calculate_modulus code inc =
      (if ref_weighted_sum (if inc then code.length else code.length + 1) code 0 = 0
       then .error (.InvalidCode code)
       else .ok (ref_weighted_sum (if inc then code.length else code.length + 1)
         code 0 % 64)) := by
  unfold calculate_modulus
  simp only [sum_weighted_ok_of_all hall, BASE64URL_ALPHABET_LENGTH]

theorem calculate_modulus_ok_elim {code : List Char} {inc : Bool} {m : Nat}
    (h : calculate_modulus code inc = .ok m) :
    (∀ c ∈ code, in_alphabet c = true) ∧
    ref_weighted_sum (if inc then code.length else code.length + 1) code 0 ≠ 0 ∧
    m = ref_weighted_sum (if inc then code.length else code.length + 1) code 0 % 64 := by
  unfold calculate_modulus at h
  cases hs : sum_weighted (if inc then code.length else code.length + 1) code 0 with
  | error e => simp only [hs] at h; exact absurd h (by simp)
  | ok S =>
    simp only [hs] at h
    obtain ⟨hall, rfl⟩ := sum_weighted_ok_elim hs
    by_cases hz : ref_weighted_sum (if inc then code.length else code.length + 1)
        code 0 = 0
    · rw [if_pos hz] at h; exact absurd h (by simp)
    · rw [if_neg hz] at h
      injection h with h
      exact ⟨hall, hz, h.symm⟩

theorem calculate_check_digit_ok_elim {code : List Char} {d : Char}
    (h : calculate_check_digit code = .ok d) :
    code ≠ [] ∧ (∀ c ∈ code, in_alphabet c = true) ∧
    ref_weighted_sum (code.length + 1) code 0 ≠ 0 ∧
    in_alphabet d = true ∧
    char_value d = (64 - ref_weighted_sum (code.length + 1) code 0 % 64) % 64 := by
  unfold calculate_check_digit at h
  by_cases hne : code.isEmpty
  · rw [if_pos hne] at h; exact absurd h (by simp)
  · rw [if_neg hne] at h
    cases hm : calculate_modulus code false with
    | error e => rw [hm] at h; exact absurd h (by simp)
    | ok m =>
      unfold to_check_digit at h
      simp only [hm] at h
      obtain ⟨hall, hS0, hmval0⟩ := calculate_modulus_ok_elim hm
      have hS : ref_weighted_sum (code.length + 1) code 0 ≠ 0 := by simpa using hS0
      have hmval : m = ref_weighted_sum (code.length + 1) code 0 % 64 := by
        simpa using hmval0
      have hcvlt : (BASE64URL_ALPHABET_LENGTH - m) % BASE64URL_ALPHABET_LENGTH < 64 := by
        unfold BASE64URL_ALPHABET_LENGTH
        omega
      have hguard : ¬(Int.ofNat ((BASE64URL_ALPHABET_LENGTH - m) %
            BASE64URL_ALPHABET_LENGTH) < 0 ∨
          (BASE64URL_ALPHABET_LENGTH : Int) ≤
            Int.ofNat ((BASE64URL_ALPHABET_LENGTH - m) % BASE64URL_ALPHABET_LENGTH)) := by
        push_neg
        refine ⟨Int.ofNat_nonneg _, ?_⟩
        have h64 : (BASE64URL_ALPHABET_LENGTH : Int) = (64 : Int) := rfl
        rw [h64]
        exact Int.ofNat_lt.mpr hcvlt
      rw [if_neg hguard] at h
      cases hg : BASE64URL_ALPHABET.get?
          (Int.ofNat ((BASE64URL_ALPHABET_LENGTH - m) %
            BASE64URL_ALPHABET_LENGTH)).toNat with
      | none => rw [hg] at h; exact absurd h (by simp)
      | some c =>
        rw [hg] at h
        injection h with h
        subst h
        have hg2 : BASE64URL_ALPHABET.get?
            ((BASE64URL_ALPHABET_LENGTH - m) % BASE64URL_ALPHABET_LENGTH) = some c := hg
        have hidx := alphabet_index_of_get? hg2
        refine ⟨by simpa using hne, hall, hS, ?_, ?_⟩
        · unfold in_alphabet
          rw [hidx]
          rfl
        · unfold char_value
          rw [hidx]
          unfold BASE64URL_ALPHABET_LENGTH
          rw [hmval]
          rfl

/-- Core checksum law shared by the round-trip and validation claims:
a successfully calculated check digit makes the extended code valid. -/
theorem check_digit_validates_core {code : List Char} {d : Char}
    (h : calculate_check_digit code = .ok d) :
    is_valid (code ++ [d]) = .ok true := by
  obtain ⟨hne, hall, hS, hd, hcv⟩ := calculate_check_digit_ok_elim h
  have hall2 : ∀ c ∈ code ++ [d], in_alphabet c = true := by
    intro c hc
    rcases List.mem_append.mp hc with h1 | h2
    · exact hall c h1
    · rw [List.mem_singleton] at h2; subst h2; exact hd
  have hlen : (code ++ [d]).length = code.length + 1 := by simp
  have hsingle : ref_weighted_sum (code.length + 1) [d] (0 + code.length) =
      char_value d := by
    show char_value d * (code.length + 1 - (0 + code.length)) + 0 = char_value d
    have h1 : code.length + 1 - (0 + code.length) = 1 := by omega
    rw [h1, Nat.mul_one, Nat.add_zero]
  have hsum : ref_weighted_sum (code.length + 1) (code ++ [d]) 0 =
      ref_weighted_sum (code.length + 1) code 0 + char_value d := by
    rw [ref_weighted_sum_append, hsingle]
  have hmod : calculate_modulus (code ++ [d]) true =
      .ok ((ref_weighted_sum (code.length + 1) code 0 + char_value d) % 64) := by
    have hmod0 := calculate_modulus_eq (code ++ [d]) true hall2
    simp only [if_true, List.length_append, List.length_singleton] at hmod0
    rw [hsum] at hmod0
    rw [if_neg (by omega)] at hmod0
    exact hmod0
  have hzero : (ref_weighted_sum (code.length + 1) code 0 + char_value d) % 64 = 0 := by
    rw [hcv]
    omega
  unfold is_valid
  rw [if_neg (by simp), hmod, hzero]
  rfl

theorem list_map_id_of_mem {l : List Char} {f : Char → Char}
    (h : ∀ x ∈ l, f x = x) : l.map f = l := by
  induction l with
  | nil => rfl
  | cons a t ih =>
    simp only [List.map_cons]
    rw [h a (List.mem_cons_self a t), ih (fun x hx => h x (List.mem_cons_of_mem a hx))]

theorem alphabet_index_lt {c : Char} {l : List Char} {i : Nat}
    (h : alphabet_index c l = some i) : i < l.length := by
  induction l generalizing i with
  | nil => exact absurd h (by simp [alphabet_index])
  | cons a t ih =>
    unfold alphabet_index at h
    by_cases ha : a == c
    · rw [if_pos ha] at h
      injection h with h
      subst h
      simp
    · rw [if_neg ha] at h
      cases ht : alphabet_index c t with
      | none => rw [ht] at h; exact absurd h (by simp)
      | some j =>
        rw [ht] at h
        injection h with h
        subst h
        have := ih ht
        simp only [List.length_cons]
        omega

theorem to_int_lt {c : Char} {v : Nat} (h : to_int c = .ok v) : v < 64 := by
  unfold to_int at h
  cases hidx : alphabet_index c BASE64URL_ALPHABET with
  | none => rw [hidx] at h; exact absurd h (by simp)
  | some i =>
    rw [hidx] at h
    injection h with h
    subst h
    exact alphabet_length ▸ alphabet_index_lt hidx

/-- Helper shared by C8 and C10: a single character never validates. -/
theorem single_char_invalid (c : Char) : is_valid [c] = .ok false := by
  unfold is_valid
  rw [if_neg (by simp)]
  unfold calculate_modulus
  cases hv : to_int c with
  | error e => simp only [sum_weighted, hv]
  | ok v =>
    have hvlt := to_int_lt hv
    by_cases hz : v = 0
    · subst hz
      simp [sum_weighted, hv, weighted_value]
    · simp [sum_weighted, hv, weighted_value, BASE64URL_ALPHABET_LENGTH, hz,
        Nat.mod_eq_of_lt hvlt]

/-! ## Claim theorems (checksum codec and escaper) -/

/-- C2: for every code `c`, if `calculate_check_digit c` succeeds with
character `d`, then `is_valid` of `c` with `d` appended returns true. -/
theorem C2_check_digit_validation {c : List Char} {d : Char}
    (h : calculate_check_digit c = .ok d) : is_valid (c ++ [d]) = .ok true :=
  check_digit_validates_core h

theorem C2_check_digit_validation_witness :
    calculate_check_digit (("cmfk1DMHRBiR4-_6HXpEFA").toList) = .ok 'n' ∧
    is_valid ((("cmfk1DMHRBiR4-_6HXpEFA").toList) ++ ['n']) = .ok true :=
  ⟨by decide, C2_check_digit_validation (by decide)⟩

/-- C1: for every non-empty string `s` over the 64-symbol alphabet (which
therefore contains no `=`), if `add_check_digit_and_escape s` succeeds with
output `e`, then `unescape_and_validate_uuid ctx e` succeeds and returns
exactly `s`, for every context string `ctx`. -/
theorem C1_escaper_round_trip {s e : List Char} (ctx : List Char)
    (hne : s ≠ []) (halpha : ∀ c ∈ s, in_alphabet c = true) (heq : '=' ∉ s)
    (h : add_check_digit_and_escape s = .ok e) :
    unescape_and_validate_uuid ctx e = .ok s := by
  unfold add_check_digit_and_escape at h
  cases hd : calculate_check_digit s with
  | error er => rw [hd] at h; exact absurd h (by simp)
  | ok d =>
    rw [hd] at h
    injection h with h
    subst h
    obtain ⟨-, -, -, hdalpha, -⟩ := calculate_check_digit_ok_elim hd
    have hvalid := check_digit_validates_core hd
    have hall2 : ∀ c ∈ s ++ [d], in_alphabet c = true := by
      intro c hc
      rcases List.mem_append.mp hc with h1 | h2
      · exact halpha c h1
      · rw [List.mem_singleton] at h2; subst h2; exact hdalpha
    have hroundtrip : ((s ++ [d]).map escape_char).map unescape_char = s ++ [d] := by
      rw [List.map_map]
      exact list_map_id_of_mem (fun x hx => unescape_escape_of_alphabet (hall2 x hx))
    have hene : ((s ++ [d]).map escape_char).isEmpty = false := by
      cases s with
      | nil => exact absurd rfl hne
      | cons a t => rfl
    have hene2 : (s ++ [d]).isEmpty = false := by
      cases s with
      | nil => exact absurd rfl hne
      | cons a t => rfl
    unfold unescape_and_validate_uuid
    simp only [hene, hroundtrip, hene2, Bool.false_eq_true, if_false, hvalid,
      Bool.not_true, List.dropLast_concat]

theorem C1_escaper_round_trip_witness :
    (("0002-70aWaB2kWsuiN6ujYgM0ZQ").toList ≠ [] ∧
      (∀ c ∈ ("0002-70aWaB2kWsuiN6ujYgM0ZQ").toList, in_alphabet c = true) ∧
      '=' ∉ ("0002-70aWaB2kWsuiN6ujYgM0ZQ").toList) ∧
    unescape_and_validate_uuid (("ark:/test").toList)
        (("0002=70aWaB2kWsuiN6ujYgM0ZQ5").toList) =
      .ok (("0002-70aWaB2kWsuiN6ujYgM0ZQ").toList) :=
  ⟨⟨by decide, by decide, by decide⟩,
    C1_escaper_round_trip (("ark:/test").toList) (by decide) (by decide) (by decide)
      (by decide)⟩

/-- C7: `calculate_modulus code includes_check_digit`, on codes whose
characters all lie in the alphabet, computes the spec's weighted sum (value
times right-to-left position `length - i`, with `length` the code length
plus one when the check digit is not included), fails with `InvalidCode`
exactly when that sum is 0, and otherwise returns the sum modulo 64. -/
theorem C7_modulus_reference (code : List Char) (inc : Bool)
    (hall : ∀ c ∈ code, in_alphabet c = true) :
    calculate_modulus code inc =
      (if ref_weighted_sum (if inc then code.length else code.length + 1) code 0 = 0
       then .error (.InvalidCode code)
       else .ok (ref_weighted_sum (if inc then code.length else code.length + 1)
         code 0 % 64)) :=
  calculate_modulus_eq code inc hall

theorem C7_modulus_reference_witness :
    (∀ c ∈ ("abc").toList, in_alphabet c = true) ∧
    calculate_modulus (("abc").toList) false =
      (if ref_weighted_sum (if false then (("abc").toList).length
            else (("abc").toList).length + 1) (("abc").toList) 0 = 0
       then .error (.InvalidCode (("abc").toList))
       else .ok (ref_weighted_sum (if false then (("abc").toList).length
            else (("abc").toList).length + 1) (("abc").toList) 0 % 64)) :=
  ⟨by decide, C7_modulus_reference (("abc").toList) false (by decide)⟩

/-- C8: `is_valid` is total — it never returns an error: it returns `false`
for the empty string and whenever the modulus computation fails, and
returns `true` exactly when `calculate_modulus code true` succeeds with
remainder 0. -/
theorem C8_is_valid_total (code : List Char) :
    (is_valid code = .ok true ∨ is_valid code = .ok false) ∧
    (code = [] → is_valid code = .ok false) ∧
    (is_valid code = .ok true ↔ calculate_modulus code true = .ok 0) := by
  by_cases hempty : code.isEmpty
  · have hnil : code = [] := by simpa [List.isEmpty_iff] using hempty
    subst hnil
    refine ⟨Or.inr (by decide), fun _ => by decide, ?_⟩
    constructor
    · intro h; exact absurd h (by decide)
    · intro h; exact absurd h (by decide)
  · unfold is_valid
    rw [if_neg hempty]
    cases hm : calculate_modulus code true with
    | error e =>
      refine ⟨Or.inr rfl, fun hc => rfl, ?_⟩
      constructor
      · intro h; exact absurd h (by simp)
      · intro h; exact absurd h (by simp)
    | ok m =>
      refine ⟨?_, fun hc => ?_, ?_⟩
      · cases m with
        | zero => exact Or.inl rfl
        | succ n => exact Or.inr rfl
      · subst hc; exact absurd hempty (by simp)
      · constructor
        · intro h
          injection h with h
          have : m = 0 := by simpa using h
          rw [this]
        · intro h
          injection h with h
          subst h
          rfl

theorem C8_is_valid_total_witness :
    is_valid [] = .ok false :=
  (C8_is_valid_total []).2.1 rfl

/-- C10: no single-character string ever validates, and consequently every
successful `unescape_and_validate_uuid` returns a non-empty segment. -/
theorem C10_no_single_char_validates :
    (∀ c : Char, is_valid [c] = .ok false) ∧
    (∀ ark esc s : List Char,
      unescape_and_validate_uuid ark esc = .ok s → s ≠ []) := by
  refine ⟨single_char_invalid, ?_⟩
  intro ark esc s h
  unfold unescape_and_validate_uuid at h
  by_cases h1 : esc.isEmpty
  · rw [if_pos h1] at h; exact absurd h (by simp)
  · rw [if_neg h1] at h
    simp only at h
    by_cases h2 : (esc.map unescape_char).isEmpty
    · rw [if_pos h2] at h; exact absurd h (by simp)
    · rw [if_neg h2] at h
      cases hv : is_valid (esc.map unescape_char) with
      | error e => rw [hv] at h; exact absurd h (by simp)
      | ok b =>
        rw [hv] at h
        cases b with
        | false => exact absurd h (by simp)
        | true =>
          simp only [Bool.not_true, Bool.false_eq_true, if_false] at h
          injection h with h
          subst h
          cases hu : esc.map unescape_char with
          | nil => rw [hu] at h2; exact absurd rfl h2
          | cons a t =>
            cases t with
            | nil =>
              rw [hu] at hv
              rw [single_char_invalid a] at hv
              exact absurd hv (by simp)
            | cons b' t' =>
              simp [List.dropLast]

theorem sum_weighted_error_of_bad {code : List Char} (L : Nat)
    (hbad : ¬ ∀ c ∈ code, in_alphabet c = true) :
    ∀ i, ∃ e, sum_weighted L code i = .error e := by
  induction code with
  | nil => exact absurd (by simp) hbad
  | cons a t ih =>
    intro i
    by_cases ha : in_alphabet a = true
    · have hbt : ¬ ∀ c ∈ t, in_alphabet c = true := by
        intro hall
        exact hbad (fun c hc => by
          rcases List.mem_cons.mp hc with rfl | hc
          · exact ha
          · exact hall c hc)
      obtain ⟨e, he⟩ := ih hbt (i + 1)
      refine ⟨e, ?_⟩
      have hok : to_int a = .ok (char_value a) := to_int_ok_iff.mpr ⟨ha, rfl⟩
      simp only [sum_weighted, hok, he]
    · refine ⟨.InvalidCharacter a, ?_⟩
      have herr : to_int a = .error (.InvalidCharacter a) :=
        to_int_error (by simpa using ha)
      simp only [sum_weighted, herr]

theorem calculate_check_digit_ok_of {code : List Char} (hne : code ≠ [])
    (hall : ∀ c ∈ code, in_alphabet c = true)
    (hS : ref_weighted_sum (code.length + 1) code 0 ≠ 0) :
    ∃ d, calculate_check_digit code = .ok d := by
  unfold calculate_check_digit
  rw [if_neg (by simpa [List.isEmpty_iff] using hne)]
  have hm := calculate_modulus_eq code false hall
  have hm2 : calculate_modulus code false =
      .ok (ref_weighted_sum (code.length + 1) code 0 % 64) := by
    simpa [hS] using hm
  simp only [hm2]
  unfold to_check_digit
  have hlt : (BASE64URL_ALPHABET_LENGTH -
      ref_weighted_sum (code.length + 1) code 0 % 64) % BASE64URL_ALPHABET_LENGTH <
      64 := by
    unfold BASE64URL_ALPHABET_LENGTH
    omega
  rw [if_neg (by
    push_neg
    refine ⟨Int.ofNat_nonneg _, ?_⟩
    have h64 : (BASE64URL_ALPHABET_LENGTH : Int) = (64 : Int) := rfl
    rw [h64]
    exact Int.ofNat_lt.mpr hlt)]
  cases hg : BASE64URL_ALPHABET.get?
      (Int.ofNat ((BASE64URL_ALPHABET_LENGTH -
        ref_weighted_sum (code.length + 1) code 0 % 64) %
          BASE64URL_ALPHABET_LENGTH)).toNat with
  | none =>
    exfalso
    have hlen : BASE64URL_ALPHABET.length ≤
        (Int.ofNat ((BASE64URL_ALPHABET_LENGTH -
          ref_weighted_sum (code.length + 1) code 0 % 64) %
            BASE64URL_ALPHABET_LENGTH)).toNat := List.get?_eq_none.mp hg
    rw [alphabet_length] at hlen
    have hlen2 : 64 ≤ (BASE64URL_ALPHABET_LENGTH -
        ref_weighted_sum (code.length + 1) code 0 % 64) %
          BASE64URL_ALPHABET_LENGTH := hlen
    omega
  | some d => exact ⟨d, rfl⟩

/-- C6 counterexample: `"A"` is a non-empty segment on which
`add_check_digit_and_escape` fails (its weighted sum is 0). -/
theorem C6_escape_failure_counterexample :
    ['A'] ≠ [] ∧
    add_check_digit_and_escape ['A'] =
      .error (.CheckDigitError (.InvalidCode ['A'])) :=
  ⟨by decide, by decide⟩

/-- C6 (amended): `add_check_digit_and_escape segment` fails iff the
check-digit computation fails — on the empty segment, on a segment with a
character outside the 64-symbol alphabet, or on a segment whose weighted
sum is 0 (such as `"A"`); on every other segment it succeeds and returns
the segment plus its check character with every `-` replaced by `=`. -/
theorem C6_escape_failure_condition (s : List Char) :
    (s = [] → add_check_digit_and_escape s = .error (.CheckDigitError .EmptyCode)) ∧
    ((¬ ∀ c ∈ s, in_alphabet c = true) →
      ∃ err, add_check_digit_and_escape s = .error err) ∧
    (s ≠ [] → (∀ c ∈ s, in_alphabet c = true) →
      ref_weighted_sum (s.length + 1) s 0 = 0 →
      add_check_digit_and_escape s = .error (.CheckDigitError (.InvalidCode s))) ∧
    (s ≠ [] → (∀ c ∈ s, in_alphabet c = true) →
      ref_weighted_sum (s.length + 1) s 0 ≠ 0 →
      ∃ d, calculate_check_digit s = .ok d ∧
        add_check_digit_and_escape s = .ok ((s ++ [d]).map escape_char)) := by
  refine ⟨?_, ?_, ?_, ?_⟩
  · rintro rfl
    decide
  · intro hbad
    unfold add_check_digit_and_escape calculate_check_digit
    by_cases hne : s.isEmpty
    · rw [if_pos hne]
      exact ⟨.CheckDigitError .EmptyCode, rfl⟩
    · rw [if_neg hne]
      unfold calculate_modulus
      simp only [Bool.false_eq_true, if_false]
      obtain ⟨e2, he2⟩ := sum_weighted_error_of_bad (s.length + 1) hbad 0
      simp only [he2]
      exact ⟨.CheckDigitError e2, rfl⟩
  · intro hne hall hzero
    unfold add_check_digit_and_escape calculate_check_digit
    rw [if_neg (by simpa [List.isEmpty_iff] using hne)]
    have hm := calculate_modulus_eq s false hall
    have hm2 : calculate_modulus s false = .error (.InvalidCode s) := by
      simpa [hzero] using hm
    rw [hm2]
  · intro hne hall hS
    obtain ⟨d, hd⟩ := calculate_check_digit_ok_of hne hall hS
    refine ⟨d, hd, ?_⟩
    unfold add_check_digit_and_escape
    rw [hd]

theorem C6_escape_failure_condition_witness :
    (("a-b").toList ≠ [] ∧ (∀ c ∈ ("a-b").toList, in_alphabet c = true) ∧
      ref_weighted_sum 4 (("a-b").toList) 0 ≠ 0) ∧
    calculate_check_digit (("a-b").toList) = .ok 'o' ∧
    add_check_digit_and_escape (("a-b").toList) = .ok (("a=bo").toList) := by
  refine ⟨⟨by decide, by decide, by decide⟩, ?_⟩
  obtain ⟨d, hd, hadd⟩ :=
    (C6_escape_failure_condition (("a-b").toList)).2.2.2 (by decide) (by decide)
      (by decide)
  have hd1 : d = 'o' := by
    have h2 := hd
    rw [show calculate_check_digit (("a-b").toList) = .ok 'o' from by decide] at h2
    injection h2 with h2
    exact h2.symm
  subst hd1
  exact ⟨hd, hadd⟩

theorem C10_no_single_char_validates_witness :
    is_valid ['n'] = .ok false ∧
    (("0002-70aWaB2kWsuiN6ujYgM0ZQ").toList ≠ []) :=
  ⟨C10_no_single_char_validates.1 'n',
    C10_no_single_char_validates.2 (("x").toList)
      (("0002=70aWaB2kWsuiN6ujYgM0ZQ5").toList)
      (("0002-70aWaB2kWsuiN6ujYgM0ZQ").toList) (by decide)⟩

/-! ## Character lemmas for the v0 upper-casing

(Rust `str::to_uppercase` is Unicode-aware, but the v0 project-id group
consists of ASCII hex characters only, on which it agrees with
`Char.toUpper`.) -/

theorem char_le_iff_toNat {a b : Char} : a ≤ b ↔ a.toNat ≤ b.toNat := Iff.rfl

theorem char_toNat_ofNat {n : Nat} (h : n < 55296) : (Char.ofNat n).toNat = n := by
  unfold Char.ofNat
  rw [dif_pos (Or.inl h)]
  unfold Char.ofNatAux
  show (UInt32.ofNat' n _).toNat = n
  simp [UInt32.ofNat', UInt32.toNat]

theorem toUpper_toNat (c : Char) :
    (Char.toUpper c).toNat =
      if c.toNat ≥ 97 ∧ c.toNat ≤ 122 then c.toNat - 32 else c.toNat := by
  unfold Char.toUpper
  by_cases h : c.toNat ≥ 97 ∧ c.toNat ≤ 122
  · rw [if_pos h, if_pos h, char_toNat_ofNat (by omega)]
  · rw [if_neg h, if_neg h]

theorem is_hex_char_iff {c : Char} :
    is_hex_char c = true ↔
      (48 ≤ c.toNat ∧ c.toNat ≤ 57) ∨ (65 ≤ c.toNat ∧ c.toNat ≤ 70) ∨
        (97 ≤ c.toNat ∧ c.toNat ≤ 102) := by
  unfold is_hex_char is_ascii_digit
  simp only [Bool.or_eq_true, Bool.and_eq_true, decide_eq_true_eq, char_le_iff_toNat]
  have h0 : ('0').toNat = 48 := rfl
  have h9 : ('9').toNat = 57 := rfl
  have hA : ('A').toNat = 65 := rfl
  have hF : ('F').toNat = 70 := rfl
  have ha : ('a').toNat = 97 := rfl
  have hf : ('f').toNat = 102 := rfl
  rw [h0, h9, hA, hF, ha, hf]
  exact or_assoc

theorem is_hex_char_toUpper {c : Char} (h : is_hex_char c = true) :
    is_hex_char (Char.toUpper c) = true := by
  rw [is_hex_char_iff] at h ⊢
  rw [toUpper_toNat]
  rcases h with h | h | h
  · rw [if_neg (by omega)]; omega
  · rw [if_neg (by omega)]; omega
  · rw [if_pos (by omega)]; omega

/-! ## Grammar shape lemmas -/

theorem ark_path_match_shape {naan processed : List Char}
    {v : List Char} {p r w : Option (List Char)}
    (h : ark_path_match naan processed = some (v, p, r, w)) :
    is_version_seg v = true ∧
    (∀ x, p = some x → is_project_id_seg x = true) ∧
    (∀ x, r = some x → is_encoded_uuid_seg x = true) ∧
    (∀ x, w = some x → is_encoded_uuid_seg x = true) ∧
    (w.isSome = true → r.isSome = true) := by
  unfold ark_path_match at h
  cases hd : drop_literal (("ark:/").toList ++ naan ++ [ '/' ]) processed with
  | none => rw [hd] at h; exact absurd h (by simp)
  | some rest =>
    rw [hd] at h
    split at h <;> try split at h
    all_goals try simp_all
    all_goals
      obtain ⟨hc, hv, hp, hr, hw⟩ := h
    all_goals subst hv
    all_goals subst hp
    all_goals subst hr
    all_goals subst hw
    all_goals simp_all

theorem v0_ark_path_match_shape {naan ark_path : List Char}
    {p l : List Char} {ts : Option (List Char)}
    (h : v0_ark_path_match naan ark_path = some (p, l, ts)) :
    p ≠ [] ∧ p.all is_hex_char = true := by
  unfold v0_ark_path_match at h
  cases hd : drop_literal (("ark:/").toList ++ naan ++ [ '/' ]) ark_path with
  | none => rw [hd] at h; exact absurd h (by simp)
  | some rest =>
    rw [hd] at h
    split at h <;> try split at h
    all_goals try simp_all
    all_goals try (split at h <;> try split at h)
    all_goals try simp_all
    all_goals
      obtain ⟨⟨⟨⟨hp1, -⟩, -⟩, -⟩, hpp, -, -⟩ := h
    all_goals subst hpp
    all_goals exact hp1

theorem parse_ark_v1_elim {naan ark_id : List Char} {uv : Nat}
    {p r w ts : Option (List Char)}
    (h : parse_ark_v1 naan ark_id = some (uv, p, r, w, ts)) :
    (∀ x, p = some x → is_project_id_seg x = true) ∧
    (∀ x, r = some x → is_encoded_uuid_seg x = true) ∧
    (w.isSome = true → r.isSome = true) := by
  cases hsp : split_first_dot ark_id with
  | mk proc ts0 =>
    unfold parse_ark_v1 match_ark_path at h
    rw [hsp] at h
    cases hm : ark_path_match naan proc with
    | none => simp [hm] at h
    | some q =>
      obtain ⟨v1, p1, r1, w1⟩ := q
      simp only [hm, Option.map_some', Option.some.injEq, Prod.mk.injEq] at h
      obtain ⟨-, hp, hr, hw, -⟩ := h
      obtain ⟨-, hsh2, hsh3, hsh4, hsh5⟩ := ark_path_match_shape hm
      subst hp; subst hr; subst hw
      exact ⟨hsh2, hsh3, hsh5⟩

theorem process_optional_uuid_isSome {ark_id : List Char} {o : Option (List Char)}
    {res : Option (List Char)} (h : process_optional_uuid ark_id o = .ok res) :
    res.isSome = o.isSome := by
  cases o with
  | none =>
    simp only [process_optional_uuid] at h
    injection h with h
    subst h
    rfl
  | some esc =>
    simp only [process_optional_uuid] at h
    cases hu : unescape_and_validate_uuid ark_id esc with
    | error e => rw [hu] at h; exact absurd h (by simp)
    | ok u => rw [hu] at h; injection h with h; subst h; rfl

theorem process_v1_ok_elim {P : Ports} {ark_id : List Char} {uv : Nat}
    {p er ew ts : Option (List Char)} {info : ArkUrlInfo}
    (h : process_v1 P ark_id (uv, p, er, ew, ts) = .ok info) :
    info.url_version = uv % 256 ∧ info.project_id = p ∧
    info.resource_id.isSome = er.isSome ∧
    info.value_id.isSome = ew.isSome ∧ info.timestamp = ts := by
  simp only [process_v1] at h
  by_cases hver : uv ≠ P.get_dsp_ark_version
  · rw [if_pos hver] at h; exact absurd h (by simp)
  · rw [if_neg hver] at h
    cases hr : process_optional_uuid ark_id er with
    | error e => rw [hr] at h; exact absurd h (by simp)
    | ok rid =>
      rw [hr] at h
      cases hw : process_optional_uuid ark_id ew with
      | error e => rw [hw] at h; exact absurd h (by simp)
      | ok vid =>
        rw [hw] at h
        injection h with h
        subst h
        exact ⟨rfl, rfl, process_optional_uuid_isSome hr,
          process_optional_uuid_isSome hw, rfl⟩

theorem process_v0_ok_elim {P : Ports} {ark_id : List Char} {p0 l : List Char}
    {ts : Option (List Char)} {info : ArkUrlInfo}
    (h : process_v0 P ark_id (p0, l, ts) = .ok info) :
    info.url_version = 0 ∧ info.project_id = some (p0.map Char.toUpper) ∧
    info.resource_id = some l ∧ info.value_id = none ∧
    info.timestamp = ts.filter (fun t => decide (8 ≤ t.length)) := by
  simp only [process_v0] at h
  cases ha : P.is_version_0_allowed (p0.map Char.toUpper) with
  | error e => rw [ha] at h; exact absurd h (by simp)
  | ok allowed =>
    rw [ha] at h
    cases allowed with
    | false => exact absurd h (by simp)
    | true =>
      simp only [Bool.not_true, Bool.false_eq_true, if_false] at h
      injection h with h
      subst h
      exact ⟨rfl, rfl, rfl, rfl, rfl⟩

/-! ## Claim theorems (parser and redirect engine) -/

/-- The five-entry template-selection table of the spec (level crossed with
timestamp presence). -/
def spec_template_name (i : ArkUrlInfo) : List Char :=
  if i.resource_id.isNone then ("DSPProjectRedirectUrl").toList
  else if i.value_id.isNone then
    (if i.timestamp.isSome then ("DSPResourceVersionRedirectUrl").toList
     else ("DSPResourceRedirectUrl").toList)
  else
    (if i.timestamp.isSome then ("DSPValueVersionRedirectUrl").toList
     else ("DSPValueRedirectUrl").toList)

/-- C3: `determine_redirect_template` is total — outside the defensive
combination (`value_id` present with `resource_id` absent) it returns
exactly the template selected by the level and timestamp-presence table,
it returns `RedirectTemplateUndetermined` exactly on that defensive
combination, and no `ArkUrlInfo` produced by a successful `parse_ark_id`
exhibits that combination (so the branch is unreachable for parser
output). -/
theorem C3_template_selection_total :
    (∀ info : ArkUrlInfo,
      (¬ (info.value_id.isSome = true ∧ info.resource_id.isNone = true) →
        determine_redirect_template info = .ok (spec_template_name info)) ∧
      (determine_redirect_template info = .error .RedirectTemplateUndetermined ↔
        info.value_id.isSome = true ∧ info.resource_id.isNone = true)) ∧
    (∀ (P : Ports) (naan ark_id : List Char) (info : ArkUrlInfo),
      parse_ark_id P naan ark_id = .ok info →
      info.value_id.isSome = true → info.resource_id.isSome = true) := by
  constructor
  · intro info
    obtain ⟨uv, pid, rid, vid, ts⟩ := info
    cases rid <;> cases vid <;> cases ts <;>
      simp [determine_redirect_template, spec_template_name, is_project_level,
        is_resource_level, is_value_level, has_timestamp]
  · intro P naan ark_id info h hv
    unfold parse_ark_id at h
    cases h1 : parse_ark_v1 naan ark_id with
    | some comps =>
      rw [h1] at h
      obtain ⟨uv, p, er, ew, ts⟩ := comps
      obtain ⟨-, -, hr, hw, -⟩ := process_v1_ok_elim h
      have hew : ew.isSome = true := by rw [← hw]; exact hv
      have her : er.isSome = true := (parse_ark_v1_elim h1).2.2 hew
      rw [hr]
      exact her
    | none =>
      rw [h1] at h
      cases h0 : parse_ark_v0 naan ark_id with
      | some comps0 =>
        rw [h0] at h
        obtain ⟨p0, l, ts⟩ := comps0
        obtain ⟨-, -, -, hval, -⟩ := process_v0_ok_elim h
        rw [hval] at hv
        exact absurd hv (by simp)
      | none => rw [h0] at h; exact absurd h (by simp)

theorem C3_template_selection_total_witness :
    determine_redirect_template
        ⟨1, some (("0001").toList), some (("res").toList), none, none⟩ =
      .ok (("DSPResourceRedirectUrl").toList) :=
  (C3_template_selection_total.1
    ⟨1, some (("0001").toList), some (("res").toList), none, none⟩).1 (by decide)

/-- C4: `parse_ark_id` tries the v1 grammar first (a structural v1 match
commits the parse to the v1 branch, with no fallback to v0); after a v1
structural match, a failure of `unescape_and_validate_uuid` on the resource
or value segment fails the whole parse with that escaper error; and when
neither grammar matches the parse fails with `InvalidArkId`. -/
theorem C4_parsing_policy :
    (∀ (P : Ports) (naan ark_id : List Char) comps,
      parse_ark_v1 naan ark_id = some comps →
      parse_ark_id P naan ark_id = process_v1 P ark_id comps) ∧
    (∀ (P : Ports) (naan ark_id : List Char) (uv : Nat) (p : Option (List Char))
        (r : List Char) (w ts : Option (List Char)) (e : UuidProcessingError),
      parse_ark_v1 naan ark_id = some (uv, p, some r, w, ts) →
      uv = P.get_dsp_ark_version →
      unescape_and_validate_uuid ark_id r = .error e →
      parse_ark_id P naan ark_id = .error (.UuidProcessingFailed e)) ∧
    (∀ (P : Ports) (naan ark_id : List Char) (uv : Nat)
        (p er : Option (List Char)) (w : List Char) (ts : Option (List Char))
        (u : Option (List Char)) (e : UuidProcessingError),
      parse_ark_v1 naan ark_id = some (uv, p, er, some w, ts) →
      uv = P.get_dsp_ark_version →
      process_optional_uuid ark_id er = .ok u →
      unescape_and_validate_uuid ark_id w = .error e →
      parse_ark_id P naan ark_id = .error (.UuidProcessingFailed e)) ∧
    (∀ (P : Ports) (naan ark_id : List Char),
      parse_ark_v1 naan ark_id = none → parse_ark_v0 naan ark_id = none →
      parse_ark_id P naan ark_id = .error (.InvalidArkId ark_id)) := by
  refine ⟨?_, ?_, ?_, ?_⟩
  · intro P naan ark_id comps h1
    unfold parse_ark_id
    rw [h1]
  · intro P naan ark_id uv p r w ts e h1 hver hu
    unfold parse_ark_id
    rw [h1]
    simp only [process_v1]
    rw [if_neg (by omega)]
    have hr : process_optional_uuid ark_id (some r) =
        .error (.UuidProcessingFailed e) := by
      simp only [process_optional_uuid, hu]
    rw [hr]
  · intro P naan ark_id uv p er w ts u e h1 hver hres hu
    unfold parse_ark_id
    rw [h1]
    simp only [process_v1]
    rw [if_neg (by omega)]
    rw [hres]
    have hw : process_optional_uuid ark_id (some w) =
        .error (.UuidProcessingFailed e) := by
      simp only [process_optional_uuid, hu]
    rw [hw]
  · intro P naan ark_id h1 h0
    unfold parse_ark_id
    rw [h1, h0]

theorem C4_parsing_policy_witness :
    (parse_ark_v1 (("00000").toList) (("ark:/00000/1/0003/AAAA").toList) =
        some (1, some (("0003").toList), some (("AAAA").toList), none, none) ∧
      (1 : Nat) = sample_ports.get_dsp_ark_version ∧
      unescape_and_validate_uuid (("ark:/00000/1/0003/AAAA").toList)
          (("AAAA").toList) =
        .error (.InvalidArkId (("ark:/00000/1/0003/AAAA").toList))) ∧
    parse_ark_id sample_ports (("00000").toList)
        (("ark:/00000/1/0003/AAAA").toList) =
      .error (.UuidProcessingFailed
        (.InvalidArkId (("ark:/00000/1/0003/AAAA").toList))) :=
  ⟨⟨by decide, by decide, by decide⟩,
    C4_parsing_policy.2.1 sample_ports (("00000").toList)
      (("ark:/00000/1/0003/AAAA").toList) 1 (some (("0003").toList))
      (("AAAA").toList) none none
      (.InvalidArkId (("ark:/00000/1/0003/AAAA").toList))
      (by decide) (by decide) (by decide)⟩

/-- C5 counterexample: a project-level identifier selects the literal key
`DSPProjectRedirectUrl`, not the spec's `ProjectRedirectUrl`. -/
theorem C5_template_keys_counterexample :
    determine_redirect_template ⟨1, some (("0001").toList), none, none, none⟩ =
      .ok (("DSPProjectRedirectUrl").toList) ∧
    ("DSPProjectRedirectUrl").toList ≠ ("ProjectRedirectUrl").toList :=
  ⟨by decide, by decide⟩

/-- C5 (amended): every configuration-template key carries a `DSP` prefix —
the five redirect templates are fetched under `DSPProjectRedirectUrl`,
`DSPResourceRedirectUrl`, `DSPResourceVersionRedirectUrl`,
`DSPValueRedirectUrl` and `DSPValueVersionRedirectUrl` (selected by level
and timestamp presence), and the IRI templates under `DSPResourceIri` and
`DSPProjectIri`; `Host` is unprefixed. -/
theorem C5_template_keys :
    (∀ info : ArkUrlInfo, info.resource_id = none → info.value_id = none →
      determine_redirect_template info = .ok (("DSPProjectRedirectUrl").toList)) ∧
    (∀ info : ArkUrlInfo, info.resource_id.isSome = true → info.value_id = none →
      info.timestamp = none →
      determine_redirect_template info = .ok (("DSPResourceRedirectUrl").toList)) ∧
    (∀ info : ArkUrlInfo, info.resource_id.isSome = true → info.value_id = none →
      info.timestamp.isSome = true →
      determine_redirect_template info =
        .ok (("DSPResourceVersionRedirectUrl").toList)) ∧
    (∀ info : ArkUrlInfo, info.resource_id.isSome = true →
      info.value_id.isSome = true → info.timestamp = none →
      determine_redirect_template info = .ok (("DSPValueRedirectUrl").toList)) ∧
    (∀ info : ArkUrlInfo, info.resource_id.isSome = true →
      info.value_id.isSome = true → info.timestamp.isSome = true →
      determine_redirect_template info =
        .ok (("DSPValueVersionRedirectUrl").toList)) ∧
    (∀ info : ArkUrlInfo, info.project_id.isSome = true →
      generate_resource_iri failing_template_ports info =
        .error (.TemplateNotFound (("DSPResourceIri").toList))) ∧
    (∀ (info : ArkUrlInfo) (dict : TemplateDict), info.project_id.isSome = true →
      generate_project_iri_for_template failing_template_ports info dict =
        .error (.TemplateNotFound (("DSPProjectIri").toList))) ∧
    (∀ (info : ArkUrlInfo) (name : List Char), info.project_id.isSome = true →
      determine_redirect_template info = .ok name →
      generate_dsp_redirect_url failing_template_ports info =
        .error (.TemplateNotFound name)) := by
  refine ⟨?_, ?_, ?_, ?_, ?_, ?_, ?_, ?_⟩
  · intro info h1 h2
    obtain ⟨uv, pid, rid, vid, ts⟩ := info
    simp only at h1 h2
    subst h1; subst h2
    cases ts <;> rfl
  · intro info h1 h2 h3
    obtain ⟨uv, pid, rid, vid, ts⟩ := info
    simp only at h1 h2 h3
    subst h2; subst h3
    cases rid with
    | none => exact absurd h1 (by simp)
    | some r => rfl
  · intro info h1 h2 h3
    obtain ⟨uv, pid, rid, vid, ts⟩ := info
    simp only at h1 h2 h3
    subst h2
    cases rid with
    | none => exact absurd h1 (by simp)
    | some r =>
      cases ts with
      | none => exact absurd h3 (by simp)
      | some t => rfl
  · intro info h1 h2 h3
    obtain ⟨uv, pid, rid, vid, ts⟩ := info
    simp only at h1 h2 h3
    subst h3
    cases rid with
    | none => exact absurd h1 (by simp)
    | some r =>
      cases vid with
      | none => exact absurd h2 (by simp)
      | some v => rfl
  · intro info h1 h2 h3
    obtain ⟨uv, pid, rid, vid, ts⟩ := info
    simp only at h1 h2 h3
    cases rid with
    | none => exact absurd h1 (by simp)
    | some r =>
      cases vid with
      | none => exact absurd h2 (by simp)
      | some v =>
        cases ts with
        | none => exact absurd h3 (by simp)
        | some t => rfl
  · intro info h1
    cases hp : info.project_id with
    | none => rw [hp] at h1; exact absurd h1 (by simp)
    | some pid =>
      unfold generate_resource_iri
      rw [hp]
      rfl
  · intro info dict h1
    cases hp : info.project_id with
    | none => rw [hp] at h1; exact absurd h1 (by simp)
    | some pid =>
      unfold generate_project_iri_for_template
      rw [hp]
      rfl
  · intro info name h1 h2
    cases hp : info.project_id with
    | none => rw [hp] at h1; exact absurd h1 (by simp)
    | some pid =>
      unfold generate_dsp_redirect_url
      rw [hp, h2]
      rfl

theorem C5_template_keys_witness :
    generate_resource_iri failing_template_ports
        ⟨1, some (("0001").toList), some (("res").toList), none, none⟩ =
      .error (.TemplateNotFound (("DSPResourceIri").toList)) :=
  C5_template_keys.2.2.2.2.2.1
    ⟨1, some (("0001").toList), some (("res").toList), none, none⟩ (by decide)

/-- C9 counterexample: the v0 grammar accepts a project id of any positive
hex length, so `"ark:/00000/00021-abc-d"` parses with a 5-character
project id. -/
theorem C9_project_id_counterexample :
    parse_ark_id sample_ports (("00000").toList)
        (("ark:/00000/00021-abc-d").toList) =
      .ok ⟨0, some (("00021").toList), some (("abc").toList), none, none⟩ ∧
    (("00021").toList).length ≠ 4 :=
  ⟨by decide, by decide⟩

/-- C9 (amended): for every `ArkUrlInfo` produced by a successful
`parse_ark_id`, a present `project_id` is a non-empty string of hexadecimal
characters; it has exactly 4 characters whenever the v1 grammar matched,
but via the v0 grammar (whose project-id group is `[0-9A-Fa-f]+`) it may
have any positive length. -/
theorem C9_project_id_shape (P : Ports) (naan ark_id : List Char)
    (info : ArkUrlInfo) (p : List Char)
    (h : parse_ark_id P naan ark_id = .ok info)
    (hp : info.project_id = some p) :
    p ≠ [] ∧ p.all is_hex_char = true ∧
    ((parse_ark_v1 naan ark_id).isSome = true → p.length = 4) := by
  unfold parse_ark_id at h
  cases h1 : parse_ark_v1 naan ark_id with
  | some comps =>
    rw [h1] at h
    obtain ⟨uv, pv, er, ew, ts⟩ := comps
    obtain ⟨-, hpid, -, -, -⟩ := process_v1_ok_elim h
    rw [hp] at hpid
    have hseg : is_project_id_seg p = true :=
      (parse_ark_v1_elim h1).1 p hpid.symm
    unfold is_project_id_seg at hseg
    rw [Bool.and_eq_true] at hseg
    obtain ⟨hlen, hhex⟩ := hseg
    have hlen4 : p.length = 4 := by simpa using hlen
    refine ⟨?_, hhex, fun _ => hlen4⟩
    intro hnil
    rw [hnil] at hlen4
    exact absurd hlen4 (by simp)
  | none =>
    rw [h1] at h
    cases h0 : parse_ark_v0 naan ark_id with
    | some comps0 =>
      rw [h0] at h
      obtain ⟨p0, l, ts⟩ := comps0
      obtain ⟨-, hpid, -, -, -⟩ := process_v0_ok_elim h
      rw [hp] at hpid
      injection hpid with hpid
      obtain ⟨hne0, hhex0⟩ := v0_ark_path_match_shape h0
      refine ⟨?_, ?_, ?_⟩
      · rw [hpid]
        simpa using hne0
      · rw [hpid]
        rw [List.all_eq_true] at hhex0 ⊢
        intro x hx
        obtain ⟨y, hy, rfl⟩ := List.mem_map.mp hx
        exact is_hex_char_toUpper (hhex0 y hy)
      · intro hsome
        exact absurd hsome (by simp)
    | none => rw [h0] at h; exact absurd h (by simp)

theorem C9_project_id_shape_witness :
    (("0003").toList ≠ [] ∧ (("0003").toList).all is_hex_char = true ∧
      ((parse_ark_v1 (("00000").toList) (("ark:/00000/1/0003").toList)).isSome =
          true → (("0003").toList).length = 4)) :=
  C9_project_id_shape sample_ports (("00000").toList)
    (("ark:/00000/1/0003").toList)
    ⟨1, some (("0003").toList), none, none, none⟩ (("0003").toList)
    (by decide) rfl

end ArkResolver
